import Mathlib

/-!
Verification of the dynamic rule-based data-verification app (`src/app.py`)
against its natural-language specification.

The app's core logic is embedded shallowly:

* a pandas `DataFrame` becomes a structure of column names plus row-major
  string cells (the app coerces every inspected cell with `astype(str)`,
  so string cells model exactly what the finding predicate sees);
* `count_findings_in_df` (app.py lines 53-64) and the "show only rows with
  findings" filter (lines 150-160) are translated branch by branch;
* the rule-loading block (lines 25-47) is modelled as explicit state
  passing over the two I/O outcomes (temp-file write, module exec);
* the run-button pipeline (lines 89-195) — invoke `check_rules`, catch
  exceptions, classify the result shape, build the summary, export to a
  multi-sheet workbook — becomes a total function from the invocation
  outcome to a record of the observable effects.
-/

namespace TBApp

/-! ### String helpers (Python `in`, `str.lower`, `str.endswith`) -/

/-- `listStartsWith hay pre`: `pre` is a prefix of `hay` (char lists). -/
def listStartsWith : List Char → List Char → Bool
  | _, [] => true
  | [], _ :: _ => false
  | a :: as, b :: bs => a == b && listStartsWith as bs

/-- Auxiliary scan: does `needle` occur as a contiguous run in the list? -/
def containsAux (needle : List Char) : List Char → Bool
  | [] => needle.isEmpty
  | c :: t => listStartsWith (c :: t) needle || containsAux needle t

/-- Python's substring test `needle in hay` (case-sensitive). -/
def strContains (hay needle : String) : Bool :=
  containsAux needle.toList hay.toList

/-- Python's `str.lower()` (character-wise lowercasing). -/
def strLower (s : String) : String :=
  ⟨s.toList.map Char.toLower⟩

/-- Python's `str.endswith(suffixStr)`. -/
def strEndsWith (s suffixStr : String) : Bool :=
  listStartsWith s.toList.reverse suffixStr.toList.reverse

/-- Python's slice `s[:n]`: the first `n` characters. -/
def strTake (s : String) (n : Nat) : String :=
  ⟨s.toList.take n⟩

/-! ### DataFrame model -/

/-- A pandas DataFrame as the app sees it: named ordered columns and
row-major cells, every cell already coerced to a string (the app applies
`astype(str)` before every cell inspection). -/
structure DataFrame where
  colNames : List String
  rows : List (List String)
deriving Repr, DecidableEq

/-- pandas `df.empty`: true when either axis has length zero. -/
def DataFrame.isEmpty (d : DataFrame) : Bool :=
  d.rows.isEmpty || d.colNames.isEmpty

/-- The cell of row `r` in the column named `name` (first occurrence),
i.e. the scalar `df[name]` yields for that row. Missing column or short
row yields `""`; the app only reads columns it has checked for. -/
def rowCell (d : DataFrame) (r : List String) (name : String) : String :=
  match d.colNames.findIdx? (fun c => c == name) with
  | some i => r.getD i ""
  | none => ""

/-- The column series `df[name]`, one entry per row. -/
def DataFrame.col (d : DataFrame) (name : String) : List String :=
  d.rows.map (fun r => rowCell d r name)

/-- Python/pandas whitespace as stripped by `str.strip()`. -/
def isSpaceChar (c : Char) : Bool :=
  c == ' ' || c == '\t' || c == '\n' || c == '\r' || c == '\x0b' || c == '\x0c'

/-- Python's `str.strip()`: drop leading and trailing whitespace. -/
def pyStrip (s : String) : String :=
  ⟨((s.toList.dropWhile isSpaceChar).reverse.dropWhile isSpaceChar).reverse⟩

/-- A stripped cell is non-empty: pandas `x.astype(str).str.strip() != ""`. -/
def cellFlagged (s : String) : Bool :=
  pyStrip s != ""

/-- app.py line 60 / line 155, the per-column-name test of the
`error_cols` comprehension:
`("Error" in c or "Duplicate" in c or c.lower().endswith("_check"))`. -/
def isErrorCol (c : String) : Bool :=
  strContains c "Error" || strContains c "Duplicate" ||
    strEndsWith (strLower c) "_check"

/-- app.py lines 53-64, `count_findings_in_df(df)`:
empty frame → 0; a `Comment` column → count of rows whose stripped
`Comment` is non-empty; otherwise the `error_cols` comprehension, 0 when
it is empty, else the count of rows where some such column's stripped
cell is non-empty (`mask.any(axis=1).sum()`). -/
def count_findings_in_df (d : DataFrame) : Nat :=
  if d.isEmpty then 0
  else if d.colNames.contains "Comment" then
    (d.col "Comment").countP (fun s => cellFlagged s)
  else
    let error_cols := d.colNames.filter isErrorCol
    if error_cols.isEmpty then 0
    else d.rows.countP (fun r => error_cols.any (fun c => cellFlagged (rowCell d r c)))

/-- app.py lines 150-160, the `show_only` branch of the per-sheet display:
with a `Comment` column keep the rows whose stripped `Comment` is
non-empty; otherwise recompute `error_cols` and keep the rows where some
such column is non-empty; with no such column show `df.iloc[0:0]`. -/
def showOnlyFilter (d : DataFrame) : DataFrame :=
  if d.colNames.contains "Comment" then
    ⟨d.colNames, d.rows.filter (fun r => cellFlagged (rowCell d r "Comment"))⟩
  else
    let error_cols := d.colNames.filter isErrorCol
    if error_cols.isEmpty then ⟨d.colNames, []⟩
    else ⟨d.colNames, d.rows.filter (fun r => error_cols.any (fun c => cellFlagged (rowCell d r c)))⟩

/-- The per-row finding predicate, written from the spec's words: the
`Comment` cell when a `Comment` column exists, else any indicator column
holding a non-whitespace value. Used to state that counting and
filtering agree. -/
def findingRow (d : DataFrame) (r : List String) : Bool :=
  if d.colNames.contains "Comment" then cellFlagged (rowCell d r "Comment")
  else (d.colNames.filter isErrorCol).any (fun c => cellFlagged (rowCell d r c))

/-! ### Rule-loading block (app.py lines 25-47)

`tempfile.NamedTemporaryFile(delete=False)` creates the on-disk artifact;
the `try` body writes the uploaded bytes, records the path in
`rules_temp_path`, and executes the module; only the `except` branch runs
`os.unlink(rules_temp_path)` (itself wrapped in a swallow-everything
`try`). The two I/O outcomes that drive the control flow are made
explicit parameters: whether writing/closing the temp file succeeds, and
whether compiling/executing the script succeeds. -/

/-- Observable outcome of the rules-upload block. -/
structure LoadResult where
  moduleLoaded : Bool
  tempFileExists : Bool
  errorShown : Bool
deriving Repr, DecidableEq

/-- app.py lines 25-47. On full success the block never reaches any
`os.unlink`, so the artifact remains. On exec failure `rules_temp_path`
has been set, so the `except` branch unlinks it. On write failure
`rules_temp_path` is still `None`, so `os.unlink(None)` raises and is
swallowed, and the artifact also remains. -/
def loadRules (writeOk : Bool) (execOk : Bool) : LoadResult :=
  if writeOk then
    if execOk then
      { moduleLoaded := true, tempFileExists := true, errorShown := false }
    else
      { moduleLoaded := false, tempFileExists := false, errorShown := true }
  else
    { moduleLoaded := false, tempFileExists := true, errorShown := true }

/-! ### Result shapes and the run pipeline (app.py lines 89-195) -/

/-- A Python value as classified by the normalization branch: a
DataFrame, a dict of named entries, `None`, or some other shape. -/
inductive PyVal where
  | df (d : DataFrame)
  | dict (entries : List (String × PyVal))
  | pyNone
  | int (n : Int)
  | list (items : List PyVal)
  | str (s : String)
deriving Repr

/-- Shapes the normalization rejects at app.py lines 105-108: neither a
DataFrame nor a dict nor `None` (`None` was already consumed by the
`results is None` check at line 99). -/
def isUnsupportedShape : PyVal → Bool
  | .df _ => false
  | .dict _ => false
  | .pyNone => false
  | .int _ => true
  | .list _ => true
  | .str _ => true

/-- Abstraction of Python's `str(value)` used at app.py line 184 to put a
textual representation of a non-tabular entry into a one-cell sheet. -/
def pyStr : PyVal → String
  | .df _ => "<DataFrame>"
  | .dict _ => "<dict>"
  | .pyNone => "None"
  | .int n => toString n
  | .list _ => "<list>"
  | .str s => s

/-- The sheet written for one entry of the results dict (app.py lines
178-185): a DataFrame is written as-is (`index=False`), anything else
becomes a single-column `Value` sheet holding its textual form. -/
def sheetOfVal : PyVal → DataFrame
  | .df d => d
  | v => ⟨["Value"], [[pyStr v]]⟩

/-- The export loop (app.py lines 176-186): each entry is written under
its name truncated to 31 characters; the spreadsheet writer refuses a
sheet whose name (case-insensitively) already exists, which aborts the
export with an exception caught at line 193. -/
def addSheets (acc : List (String × DataFrame)) :
    List (String × PyVal) → Except String (List (String × DataFrame))
  | [] => .ok acc
  | (n, v) :: rest =>
    if acc.any (fun s => strLower s.1 == strLower (strTake n 31)) then
      .error "duplicate worksheet name"
    else addSheets (acc ++ [(strTake n 31, sheetOfVal v)]) rest

/-- Export of the whole results dict to the multi-sheet workbook. -/
def exportSheets (m : List (String × PyVal)) :
    Except String (List (String × DataFrame)) :=
  addSheets [] m

/-- One summary row (app.py lines 113-120): sheet name, `Total Rows`,
`Findings`; non-DataFrame entries report zeros. -/
def summaryRow (n : String) (v : PyVal) : String × Nat × Nat :=
  match v with
  | .df d => (n, d.rows.length, count_findings_in_df d)
  | _ => (n, 0, 0)

/-- The observable effects of one press of the Run button. -/
structure RunState where
  ruleError : Option String
  noResultsWarning : Bool
  rawShown : Option PyVal
  summary : List (String × Nat × Nat)
  tables : List (String × PyVal)
  exported : Option (List (String × DataFrame))
  downloadOffered : Bool
deriving Repr

/-- The run with nothing produced: no summary, no tables, no download. -/
def emptyRun (err : Option String) (warn : Bool) (raw : Option PyVal) : RunState :=
  { ruleError := err, noResultsWarning := warn, rawShown := raw,
    summary := [], tables := [], exported := none, downloadOffered := false }

/-- app.py lines 110-195 for a normalized results dict `m`: Python's
`if results:` skips everything when the dict is empty; otherwise the
summary is built per entry, the workbook is written, and the download
button appears only when the export raised no exception. -/
def processResults (m : List (String × PyVal)) : RunState :=
  if m.isEmpty then emptyRun none false none
  else
    match exportSheets m with
    | .ok sheets =>
      { ruleError := none, noResultsWarning := false, rawShown := none,
        summary := m.map (fun p => summaryRow p.1 p.2), tables := m,
        exported := some sheets, downloadOffered := true }
    | .error _ =>
      { ruleError := none, noResultsWarning := false, rawShown := none,
        summary := m.map (fun p => summaryRow p.1 p.2), tables := m,
        exported := none, downloadOffered := false }

/-- app.py lines 89-195. The argument is the outcome of calling
`rules_module.check_rules(data_file)`: `.error msg` when the call raised
(caught at line 94, `results = None`), `.ok v` its return value
otherwise. Lines 99-108 then classify: `None` → warning only; a
DataFrame → wrapped as `{"Validation": results}`; a dict → used as-is;
anything else → displayed raw and dropped. -/
def runPipeline : Except String PyVal → RunState
  | .error msg => emptyRun (some msg) true none
  | .ok .pyNone => emptyRun none true none
  | .ok (.df d) => processResults [("Validation", .df d)]
  | .ok (.dict m) => processResults m
  | .ok v => emptyRun none false (some v)

/-! ### Shared lemmas about counting and filtering -/

/-- With a `Comment` column the count is the number of rows whose
stripped `Comment` cell is non-empty. -/
lemma count_eq_comment_countP (d : DataFrame)
    (hc : d.colNames.contains "Comment" = true) :
    count_findings_in_df d =
      d.rows.countP (fun r => cellFlagged (rowCell d r "Comment")) := by
  have hmem : "Comment" ∈ d.colNames := by simpa using hc
  have hcols : d.colNames ≠ [] := by
    intro hh
    rw [hh] at hmem
    simp at hmem
  unfold count_findings_in_df
  cases h : d.isEmpty
  · simp only [h, Bool.false_eq_true, if_false]
    rw [if_pos hc]
    unfold DataFrame.col
    rw [List.countP_map]
    rfl
  · have hrows : d.rows = [] := by
      unfold DataFrame.isEmpty at h
      simp [List.isEmpty_iff, hcols] at h
      exact h
    simp [hrows]

/-- Without a `Comment` column but with indicator columns, the count is
the number of rows where some indicator column's stripped cell is
non-empty. -/
lemma count_eq_indicator_countP (d : DataFrame)
    (hc : d.colNames.contains "Comment" = false)
    (hne : (d.colNames.filter isErrorCol).isEmpty = false) :
    count_findings_in_df d =
      d.rows.countP (fun r =>
        (d.colNames.filter isErrorCol).any (fun c => cellFlagged (rowCell d r c))) := by
  have hmem : "Comment" ∉ d.colNames := by simpa using hc
  have hcols : d.colNames ≠ [] := by
    intro hh
    rw [hh] at hne
    simp at hne
  unfold count_findings_in_df
  cases h : d.isEmpty
  · simp only [h, Bool.false_eq_true, if_false]
    rw [if_neg (by simp [hmem]), if_neg (by simp [hne])]
  · have hrows : d.rows = [] := by
      unfold DataFrame.isEmpty at h
      simp [List.isEmpty_iff, hcols] at h
      exact h
    simp [hrows]

/-- Without a `Comment` column and without indicator columns the count
is zero. -/
lemma count_eq_zero_of_no_indicator (d : DataFrame)
    (hc : d.colNames.contains "Comment" = false)
    (he : (d.colNames.filter isErrorCol).isEmpty = true) :
    count_findings_in_df d = 0 := by
  have hmem : "Comment" ∉ d.colNames := by simpa using hc
  unfold count_findings_in_df
  cases h : d.isEmpty <;> simp [h, hmem, he]

/-- The filter keeps exactly the rows satisfying `findingRow`. -/
lemma showOnlyFilter_rows_eq (d : DataFrame) :
    (showOnlyFilter d).rows = d.rows.filter (fun r => findingRow d r) := by
  unfold showOnlyFilter findingRow
  cases hc : d.colNames.contains "Comment"
  · cases hne : (d.colNames.filter isErrorCol).isEmpty
    · simp [hne]
    · have : d.colNames.filter isErrorCol = [] := by
        simpa [List.isEmpty_iff] using hne
      simp [hne, this]
  · simp

/-- The count agrees with `countP` of the shared per-row predicate. -/
lemma count_eq_countP_findingRow (d : DataFrame) :
    count_findings_in_df d = d.rows.countP (fun r => findingRow d r) := by
  unfold findingRow
  cases hc : d.colNames.contains "Comment"
  · cases hne : (d.colNames.filter isErrorCol).isEmpty
    · rw [count_eq_indicator_countP d hc hne]
      simp only [hc, Bool.false_eq_true, if_false]
    · have hfil : d.colNames.filter isErrorCol = [] := by
        simpa [List.isEmpty_iff] using hne
      rw [count_eq_zero_of_no_indicator d hc hne]
      simp [hc, hfil]
  · rw [count_eq_comment_countP d hc]
    simp only [hc, if_true]

/-! ### Claim theorems -/

/-- C1: the claim — and the spec's Loader contract — demand that the
temporary script artifact is deleted on every exit path of the load,
including the success path. The code only unlinks in the `except`
branch: on a fully successful load (temp file written, module executed)
the module is loaded, no error is shown, and the temp file is still on
disk. The spec itself flags this leak as the defect to fix, so the code
contradicts the documented contract at this input. -/
theorem load_success_leaks_temp_file :
    (loadRules true true).moduleLoaded = true ∧
    (loadRules true true).errorShown = false ∧
    (loadRules true true).tempFileExists = true := by
  decide

/-- C2: for a table with a `Comment` column, the finding count is the
number of rows whose stripped `Comment` cell is non-empty; no other
column influences the result (the right-hand side reads only the
`Comment` cell of each row). -/
theorem comment_count_spec (d : DataFrame)
    (hc : d.colNames.contains "Comment" = true) :
    count_findings_in_df d =
      d.rows.countP (fun r => cellFlagged (rowCell d r "Comment")) :=
  count_eq_comment_countP d hc

/-- C2 witness: a 2-row table with a `Comment` column and a populated
`ErrorFlag` column; only the row with a non-blank comment is counted. -/
theorem comment_count_spec_witness :
    (DataFrame.mk ["Comment", "ErrorFlag"] [["x", "bad"], [" ", "bad"]]).colNames.contains "Comment" = true ∧
    count_findings_in_df (DataFrame.mk ["Comment", "ErrorFlag"] [["x", "bad"], [" ", "bad"]]) =
      (DataFrame.mk ["Comment", "ErrorFlag"] [["x", "bad"], [" ", "bad"]]).rows.countP
        (fun r => cellFlagged (rowCell (DataFrame.mk ["Comment", "ErrorFlag"] [["x", "bad"], [" ", "bad"]]) r "Comment")) :=
  ⟨by decide, comment_count_spec _ (by decide)⟩

/-- C3: for a table without a `Comment` column but with at least one
indicator column, the finding count is the number of rows in which some
indicator column's stripped cell is non-empty. -/
theorem indicator_count_spec (d : DataFrame)
    (hc : d.colNames.contains "Comment" = false)
    (hne : (d.colNames.filter isErrorCol).isEmpty = false) :
    count_findings_in_df d =
      d.rows.countP (fun r =>
        (d.colNames.filter isErrorCol).any (fun c => cellFlagged (rowCell d r c))) :=
  count_eq_indicator_countP d hc hne

/-- C3 witness: no `Comment`, indicator columns `HasError` and
`Qty_check`; rows flagged in either are counted once. -/
theorem indicator_count_spec_witness :
    (DataFrame.mk ["HasError", "Qty_check"] [["bad", ""], ["", " "], ["", "dup"]]).colNames.contains "Comment" = false ∧
    ((DataFrame.mk ["HasError", "Qty_check"] [["bad", ""], ["", " "], ["", "dup"]]).colNames.filter isErrorCol).isEmpty = false ∧
    count_findings_in_df (DataFrame.mk ["HasError", "Qty_check"] [["bad", ""], ["", " "], ["", "dup"]]) =
      (DataFrame.mk ["HasError", "Qty_check"] [["bad", ""], ["", " "], ["", "dup"]]).rows.countP
        (fun r => ((DataFrame.mk ["HasError", "Qty_check"] [["bad", ""], ["", " "], ["", "dup"]]).colNames.filter isErrorCol).any
          (fun c => cellFlagged (rowCell (DataFrame.mk ["HasError", "Qty_check"] [["bad", ""], ["", " "], ["", "dup"]]) r c))) :=
  ⟨by decide, by decide, indicator_count_spec _ (by decide) (by decide)⟩

/-- C4: the "show only rows with findings" filter keeps exactly the rows
satisfying the shared finding predicate, and the number of kept rows
equals the table's reported finding count — for every table, with or
without a `Comment` column, indicator columns, or neither. -/
theorem filter_agrees_with_count (d : DataFrame) :
    (showOnlyFilter d).rows = d.rows.filter (fun r => findingRow d r) ∧
    (showOnlyFilter d).rows.length = count_findings_in_df d := by
  refine ⟨showOnlyFilter_rows_eq d, ?_⟩
  rw [showOnlyFilter_rows_eq d, count_eq_countP_findingRow d,
    List.countP_eq_length_filter]

/-- C9: a table with no `Comment` column and no indicator column has
finding count 0, whatever its cells hold. -/
theorem no_indicator_count_zero (d : DataFrame)
    (hc : d.colNames.contains "Comment" = false)
    (he : (d.colNames.filter isErrorCol).isEmpty = true) :
    count_findings_in_df d = 0 :=
  count_eq_zero_of_no_indicator d hc he

/-- C9 witness: columns `Name`/`Qty` full of non-blank values still count
zero findings. -/
theorem no_indicator_count_zero_witness :
    (DataFrame.mk ["Name", "Qty"] [["a", "1"], ["b", "2"]]).colNames.contains "Comment" = false ∧
    ((DataFrame.mk ["Name", "Qty"] [["a", "1"], ["b", "2"]]).colNames.filter isErrorCol).isEmpty = true ∧
    count_findings_in_df (DataFrame.mk ["Name", "Qty"] [["a", "1"], ["b", "2"]]) = 0 :=
  ⟨by decide, by decide, no_indicator_count_zero _ (by decide) (by decide)⟩

/-- C10: `Error`/`Duplicate` matching is case-sensitive while the
`_check` suffix test is case-insensitive. Lower-case `error` and
`duplicate` columns are not indicator columns, so a Comment-less table
whose columns are exactly `error` and `duplicate` has finding count 0
and an empty findings-only filter no matter what its cells hold; a
`My_CHECK` column is an indicator column, is counted, and is kept by the
same filter. -/
theorem indicator_case_sensitivity (d : DataFrame)
    (hcols : d.colNames = ["error", "duplicate"]) :
    isErrorCol "error" = false ∧
    isErrorCol "duplicate" = false ∧
    isErrorCol "My_CHECK" = true ∧
    count_findings_in_df d = 0 ∧
    (showOnlyFilter d).rows = [] ∧
    count_findings_in_df (DataFrame.mk ["My_CHECK"] [["bad"], [" "]]) = 1 ∧
    (showOnlyFilter (DataFrame.mk ["My_CHECK"] [["bad"], [" "]])).rows = [["bad"]] := by
  refine ⟨by decide, by decide, by decide, ?_, ?_, by decide, by decide⟩
  · exact count_eq_zero_of_no_indicator d (by rw [hcols]; decide) (by rw [hcols]; decide)
  · rw [showOnlyFilter_rows_eq d]
    have hfr : ∀ r, findingRow d r = false := by
      intro r
      unfold findingRow
      rw [hcols, if_neg (by decide),
        show List.filter isErrorCol ["error", "duplicate"] = [] from by decide]
      rfl
    simp [hfr]

/-- C10 witness: the lowercase-named table with non-blank cells. -/
theorem indicator_case_sensitivity_witness :
    (DataFrame.mk ["error", "duplicate"] [["bad", "dup"]]).colNames = ["error", "duplicate"] ∧
    count_findings_in_df (DataFrame.mk ["error", "duplicate"] [["bad", "dup"]]) = 0 ∧
    (showOnlyFilter (DataFrame.mk ["error", "duplicate"] [["bad", "dup"]])).rows = [] :=
  ⟨rfl,
    (indicator_case_sensitivity (DataFrame.mk ["error", "duplicate"] [["bad", "dup"]]) rfl).2.2.2.1,
    (indicator_case_sensitivity (DataFrame.mk ["error", "duplicate"] [["bad", "dup"]]) rfl).2.2.2.2.1⟩

/-! ### Export invariants -/

/-- Sheets already written keep their place in the finished workbook. -/
lemma addSheets_acc_subset (m : List (String × PyVal)) :
    ∀ acc sheets, addSheets acc m = Except.ok sheets →
      ∀ s ∈ acc, s ∈ sheets := by
  induction m with
  | nil =>
    intro acc sheets hok s hs
    simp only [addSheets] at hok
    cases hok
    exact hs
  | cons hd tl ih =>
    intro acc sheets hok s hs
    obtain ⟨n, v⟩ := hd
    simp only [addSheets] at hok
    by_cases hdup : (acc.any (fun s => strLower s.1 == strLower (strTake n 31))) = true
    · rw [if_pos hdup] at hok
      cases hok
    · rw [if_neg hdup] at hok
      exact ih _ _ hok s (List.mem_append_left _ hs)

/-- Every entry of the results dict lands in the finished workbook under
its truncated name. -/
lemma addSheets_mem (m : List (String × PyVal)) :
    ∀ acc sheets, addSheets acc m = Except.ok sheets →
      ∀ n v, (n, v) ∈ m → (strTake n 31, sheetOfVal v) ∈ sheets := by
  induction m with
  | nil =>
    intro acc sheets _ n v hmem
    simp at hmem
  | cons hd tl ih =>
    intro acc sheets hok n v hmem
    obtain ⟨n₀, v₀⟩ := hd
    simp only [addSheets] at hok
    by_cases hdup : (acc.any (fun s => strLower s.1 == strLower (strTake n₀ 31))) = true
    · rw [if_pos hdup] at hok
      cases hok
    · rw [if_neg hdup] at hok
      rcases List.mem_cons.mp hmem with heq | htl
      · obtain ⟨h1, h2⟩ := Prod.mk.injEq .. ▸ heq
        subst h1; subst h2
        exact addSheets_acc_subset tl _ _ hok _ (List.mem_append_right _ (List.mem_singleton.mpr rfl))
      · exact ih _ _ hok n v htl

/-- Pairwise distinctness (case-insensitive) of sheet names. -/
def SheetNamesOk (l : List (String × DataFrame)) : Prop :=
  l.Pairwise (fun a b => strLower a.1 ≠ strLower b.1)

/-- The writer's duplicate check keeps sheet names pairwise distinct. -/
lemma addSheets_namesOk (m : List (String × PyVal)) :
    ∀ acc sheets, addSheets acc m = Except.ok sheets →
      SheetNamesOk acc → SheetNamesOk sheets := by
  induction m with
  | nil =>
    intro acc sheets hok hacc
    simp only [addSheets] at hok
    cases hok
    exact hacc
  | cons hd tl ih =>
    intro acc sheets hok hacc
    obtain ⟨n, v⟩ := hd
    simp only [addSheets] at hok
    by_cases hdup : (acc.any (fun s => strLower s.1 == strLower (strTake n 31))) = true
    · rw [if_pos hdup] at hok
      cases hok
    · rw [if_neg hdup] at hok
      refine ih _ _ hok ?_
      unfold SheetNamesOk
      rw [List.pairwise_append]
      refine ⟨hacc, List.pairwise_singleton _ _, ?_⟩
      intro a ha b hb
      rw [List.mem_singleton.mp hb]
      intro habs
      have : (strLower a.1 == strLower (strTake n 31)) = true := by
        simpa using habs
      exact (List.any_eq_false.mp (Bool.not_eq_true _ ▸ hdup) a ha) this

/-- In a workbook with pairwise-distinct sheet names, a present sheet is
found exactly once by name. -/
lemma countP_eq_one_of_namesOk (sheets : List (String × DataFrame))
    (name : String) (d : DataFrame)
    (hok : SheetNamesOk sheets) (hmem : (name, d) ∈ sheets) :
    sheets.countP (fun s => s.1 == name) = 1 := by
  induction sheets with
  | nil => simp at hmem
  | cons hd tl ih =>
    rw [SheetNamesOk, List.pairwise_cons] at hok
    rcases List.mem_cons.mp hmem with heq | htl
    · subst heq
      rw [List.countP_cons]
      have htl0 : tl.countP (fun s => s.1 == name) = 0 := by
        rw [List.countP_eq_zero]
        intro s hs hbeq
        have hname : s.1 = name := by simpa using hbeq
        exact hok.1 s hs (by rw [hname])
      simp [htl0]
    · have hne : (hd.1 == name) = false := by
        have : strLower hd.1 ≠ strLower name := hok.1 (name, d) htl
        simp only [beq_eq_false_iff_ne, ne_eq]
        intro habs
        exact this (by rw [habs])
      rw [List.countP_cons, ih hok.2 htl, hne]
      simp

/-! ### Run-pipeline claim theorems -/

/-- C5: an exception raised inside `check_rules` is caught at app.py
line 94: the run reports the diagnostic, warns that no results were
returned, normalizes zero tables, and offers no download — for every
possible diagnostic message, the pipeline still returns a structured
state rather than propagating. -/
theorem rule_exception_caught (msg : String) :
    runPipeline (.error msg) =
      { ruleError := some msg, noResultsWarning := true, rawShown := none,
        summary := [], tables := [], exported := none, downloadOffered := false } :=
  rfl

/-- C6 counterexample: the claim includes `None` among the shapes
reported as unsupported with their raw value displayed, but a `None`
result takes the `results is None` warning path at app.py line 99: no
raw value is shown and no unsupported-shape report is made. -/
theorem none_result_no_raw_display :
    (runPipeline (.ok .pyNone)).rawShown = none ∧
    (runPipeline (.ok .pyNone)).noResultsWarning = true ∧
    (runPipeline (.ok .pyNone)).tables = [] :=
  ⟨rfl, rfl, rfl⟩

/-- C6 amended: a non-`None` result that is neither a DataFrame nor a
dict is displayed raw as an unsupported shape, with zero tables
normalized and no download; a `None` result instead only produces the
"No results returned." warning, likewise with zero tables and no
download. -/
theorem unsupported_shape_reported (v : PyVal)
    (h : isUnsupportedShape v = true) :
    (runPipeline (.ok v)).rawShown = some v ∧
    (runPipeline (.ok v)).tables = [] ∧
    (runPipeline (.ok v)).downloadOffered = false ∧
    (runPipeline (.ok .pyNone)).rawShown = none ∧
    (runPipeline (.ok .pyNone)).noResultsWarning = true ∧
    (runPipeline (.ok .pyNone)).tables = [] := by
  cases v <;> simp_all [runPipeline, emptyRun, isUnsupportedShape]

/-- C6 amended, witness: the integer `42`. -/
theorem unsupported_shape_reported_witness :
    isUnsupportedShape (.int 42) = true ∧
    ((runPipeline (.ok (.int 42))).rawShown = some (.int 42) ∧
     (runPipeline (.ok (.int 42))).tables = [] ∧
     (runPipeline (.ok (.int 42))).downloadOffered = false ∧
     (runPipeline (.ok .pyNone)).rawShown = none ∧
     (runPipeline (.ok .pyNone)).noResultsWarning = true ∧
     (runPipeline (.ok .pyNone)).tables = []) :=
  ⟨rfl, unsupported_shape_reported (.int 42) rfl⟩

/-- C7: when the export succeeds, every DataFrame entry of the results
dict appears as exactly one sheet of the workbook — found exactly once
under its name truncated to 31 characters — and that sheet holds
exactly the original table's columns and rows. -/
theorem export_round_trip (m : List (String × PyVal))
    (sheets : List (String × DataFrame)) (n : String) (d : DataFrame)
    (hok : exportSheets m = Except.ok sheets)
    (hmem : (n, PyVal.df d) ∈ m) :
    sheets.countP (fun s => s.1 == strTake n 31) = 1 ∧
    (strTake n 31, d) ∈ sheets := by
  have hmem' : (strTake n 31, d) ∈ sheets :=
    addSheets_mem m [] sheets hok n (PyVal.df d) hmem
  have hnames : SheetNamesOk sheets :=
    addSheets_namesOk m [] sheets hok List.Pairwise.nil
  exact ⟨countP_eq_one_of_namesOk sheets (strTake n 31) d hnames hmem', hmem'⟩

/-- C7 witness: a one-table dict exports to the one expected sheet. -/
theorem export_round_trip_witness :
    exportSheets [("Validation", PyVal.df (DataFrame.mk ["A"] [["1"]]))] =
      Except.ok [(strTake "Validation" 31, DataFrame.mk ["A"] [["1"]])] ∧
    ("Validation", PyVal.df (DataFrame.mk ["A"] [["1"]])) ∈
      [("Validation", PyVal.df (DataFrame.mk ["A"] [["1"]]))] ∧
    ([(strTake "Validation" 31, DataFrame.mk ["A"] [["1"]])].countP
        (fun s => s.1 == strTake "Validation" 31) = 1 ∧
      (strTake "Validation" 31, DataFrame.mk ["A"] [["1"]]) ∈
        [(strTake "Validation" 31, DataFrame.mk ["A"] [["1"]])]) :=
  ⟨rfl, List.mem_singleton.mpr rfl,
    export_round_trip [("Validation", PyVal.df (DataFrame.mk ["A"] [["1"]]))]
      [(strTake "Validation" 31, DataFrame.mk ["A"] [["1"]])]
      "Validation" (DataFrame.mk ["A"] [["1"]]) rfl
      (List.mem_singleton.mpr rfl)⟩

/-- C8: a bare DataFrame result is wrapped as the one-entry dict under
the name "Validation": the normalized tables, the summary, and the
exported workbook each hold exactly one entry, named "Validation", and
the exported sheet is the table itself. -/
theorem single_df_wrapped_as_validation (d : DataFrame) :
    (runPipeline (.ok (.df d))).tables = [("Validation", .df d)] ∧
    (runPipeline (.ok (.df d))).summary =
      [("Validation", d.rows.length, count_findings_in_df d)] ∧
    (runPipeline (.ok (.df d))).exported = some [("Validation", d)] ∧
    (runPipeline (.ok (.df d))).downloadOffered = true :=
  ⟨rfl, rfl, rfl, rfl⟩

end TBApp
